import Mathlib

/-
Verification development for the sendgrid-campaigns repository.

This file gives a shallow embedding, in Lean 4, of the parts of the
repository that the checked claims are about:

  * `utils/file_utils.py`    : `parse_receivers_file`
  * `campaign_manager.py`    : `process_campaign_request`, `create_or_update_campaign`
  * `api/campaign.py`        : `get_existing_lists`, `create_contacts_list`,
                               `check_existing_campaign`, `get_default_suppression_group`
  * `api/sender.py`          : `get_sender_id`
  * `utils/date_utils.py`    : `parse_schedule_time`
  * `eml_extractor.py`       : `get_azure_blob_url`, `process_image`, and the
                               image-rewriting loop of `extract_html_from_eml`

Remote HTTP calls, the filesystem, clock and hash functions are modelled as an
explicit environment record; every remote call made by the embedded workflow is
recorded in a trace (`List ApiCall`) so that statements of the form
"endpoint X is never called" can be expressed.  Python exceptions are modelled
with `Except`/`Option` results; Python truthiness tests on optional strings
(`if args.campaign_id:`) are modelled by `truthyOpt`, which is false exactly on
`None` and on the empty string, while the dispatch in
`process_campaign_request` uses `is not None`, modelled by `Option.isSome`.
-/

namespace SendgridCampaigns

/-- Rendering of a Python value in an f-string: a present string renders as
itself, `None` renders as the four characters `None`. -/
def optStr : Option String → String
  | some s => s
  | none => "None"

/-- Python truthiness of an optional string: `None` and `""` are falsy,
every other string is truthy.  Mirrors `if args.campaign_id:` etc. -/
def truthyOpt : Option String → Bool
  | some s => s != ""
  | none => false

/-- Whether the first list is a prefix of the second (character lists). -/
def isPrefixChars : List Char → List Char → Bool
  | [], _ => true
  | _ :: _, [] => false
  | p :: ps, c :: cs => p == c && isPrefixChars ps cs

/-- Python's `s.startswith(pre)`. -/
def strStartsWith (s pre : String) : Bool :=
  isPrefixChars pre.data s.data

/-- The characters before the first occurrence of the three-character
separator `" - "` (the whole list when the separator is absent); this is
Python's `s.split(' - ')[0]`. -/
def takeBeforeSep : List Char → List Char
  | ' ' :: '-' :: ' ' :: _ => []
  | c :: rest => c :: takeBeforeSep rest
  | [] => []

/-- Python's `s.replace('cid:', '')`: delete every (non-overlapping,
left-to-right) occurrence of `cid:`. -/
def stripCidMarkers : List Char → List Char
  | 'c' :: 'i' :: 'd' :: ':' :: rest => stripCidMarkers rest
  | c :: rest => c :: stripCidMarkers rest
  | [] => []

/-- Python's `s.replace('cid:', '')` at the string level. -/
def replaceCid (s : String) : String :=
  String.mk (stripCidMarkers s.data)

/-- Strict lexicographic order on character lists; on the equal-length
digit timestamps `YYYYMMDD_HHMMSS` used in contact-list names it is exactly
chronological order ("is older than"). -/
def lexLt : List Char → List Char → Bool
  | [], [] => false
  | [], _ :: _ => true
  | _ :: _, [] => false
  | a :: as, b :: bs => if a == b then lexLt as bs else decide (a < b)

/-! ## utils/file_utils.py -/

/-- Errors raised by the embedded workflow.  The Python code raises
`ValueError` (and built-in IO errors) with the messages noted in comments;
the constructors distinguish the raise sites. -/
inductive CampaignError where
  /-- The `Campaign cannot be updated because its status is '...'` -/
  | invalidState (status : Option String)
  /-- The `A campaign with the subject '...' already exists. ...` (full message) -/
  | conflict (msg : String)
  /-- a built-in error from `open()` on a missing or `None` path -/
  | fileError (path : String)
  /-- The `Empty response from SendGrid API` while fetching senders -/
  | senderApi
  /-- The `No verified sender found for email: ...` -/
  | senderNotFound (email : String)
  /-- The `strptime` failure on the schedule time string -/
  | badScheduleTime (s : String)
  /-- failure while creating a suppression group -/
  | suppressionGroupApi
  /-- The `Failed to create contacts list` -/
  | listCreationFailed
  /-- failure of the singlesend create (POST) call -/
  | postApi (msg : String)
  /-- failure (exception) of the singlesend update (PATCH) call -/
  | patchApi
deriving DecidableEq, Repr

/-- Python's `str.strip()` on a character list: drop whitespace from both
ends.  (Python also strips some exotic Unicode whitespace; on ASCII input —
space, tab, carriage return, newline — the two agree.) -/
def stripChars (l : List Char) : List Char :=
  ((l.dropWhile Char.isWhitespace).reverse.dropWhile Char.isWhitespace).reverse

/-- Python's `str.strip()`. -/
def pyStrip (s : String) : String :=
  String.mk (stripChars s.data)

/-- The email-address extraction applied by `parse_receivers_file` to an
accepted line.  Python's `line.split("<")[1]` is the text strictly between the
first `<` and the following `<` (or the end of the line); `.split(">")[0]` then
keeps the text before the first `>` of that chunk; `.strip()` removes leading
and trailing whitespace (which also disposes of the trailing newline kept by
Python file-line iteration). -/
def extract_email (line : String) : String :=
  let afterLt := (line.data.dropWhile (fun c => c != '<')).drop 1
  let chunk := afterLt.takeWhile (fun c => c != '<')
  let raw := chunk.takeWhile (fun c => c != '>')
  String.mk (stripChars raw)

/-- The `parse_receivers_file` from `utils/file_utils.py`.  The filesystem is the
function `fs` from a path to the file's lines (`none` = no such file, in which
case `open()` raises).  A falsy path (`None` or `""`) returns `[]` without
touching `fs`.  A line is accepted exactly when it contains both `<` and `>`
(Python `"<" in line and (">") in line`). -/
def parse_receivers_file (file_path : Option String)
    (fs : String → Option (List String)) : Except CampaignError (List String) :=
  match file_path with
  | none => .ok []
  | some p =>
    if p = "" then .ok []
    else
      match fs p with
      | none => .error (.fileError p)
      | some lines =>
        .ok (lines.filterMap (fun line =>
          if '<' ∈ line.data ∧ '>' ∈ line.data then some (extract_email line)
          else none))

/-! ## Argument record and dispatch (`campaign_manager.py`) -/

/-- The optional CLI arguments consulted by `process_campaign_request`
(the config path and subcommand are not part of the dispatch). -/
structure Args where
  campaign_id : Option String
  subject : Option String
  sender : Option String
  receivers_file_path : Option String
  html_body_file_path : Option String
  scheduled_at : Option String
deriving DecidableEq, Repr

/-- The list of provided argument names, in the order hard-coded in
`process_campaign_request`; an argument is "provided" when it `is not None`
(truthiness is *not* used here). -/
def providedArgs (args : Args) : List String :=
  (if args.campaign_id.isSome then ["campaign_id"] else []) ++
  (if args.subject.isSome then ["subject"] else []) ++
  (if args.sender.isSome then ["sender"] else []) ++
  (if args.html_body_file_path.isSome then ["html_body_file_path"] else []) ++
  (if args.scheduled_at.isSome then ["scheduled_at"] else []) ++
  (if args.receivers_file_path.isSome then ["receivers_file_path"] else [])

/-- The five fields required for creation/update, as listed in the code. -/
def requiredFields : List String :=
  ["subject", "sender", "receivers_file_path", "html_body_file_path", "scheduled_at"]

/-- The usage error message raised on an invalid combination of arguments. -/
def usageMessage : String :=
  "You can pass:\n1. No arguments to get a list of campaigns\n2. Just a campaign_id to get the details for that campaign\n3. All arguments except campaign_id to create a new campaign\n4. All arguments including campaign_id to replace an existing campaign"

/-- The action selected by the dispatch in `process_campaign_request`. -/
inductive CampaignRequestAction where
  /-- list all campaigns (`get_campaign_list`) -/
  | listCampaigns
  /-- fetch one campaign's details (`get_campaign_details`) -/
  | campaignDetails (id : String)
  /-- enter `create_or_update_campaign` with the given arguments -/
  | createOrUpdate (args : Args)
  /-- raise the usage `ValueError` -/
  | usageError (msg : String)
deriving DecidableEq, Repr

/-- The dispatch of `process_campaign_request` (campaign_manager.py lines
135-177): no provided args → list; exactly `['campaign_id']` → details;
all five required fields provided → create-or-update; else usage error. -/
def process_campaign_request (args : Args) : CampaignRequestAction :=
  let provided := providedArgs args
  if provided = [] then .listCampaigns
  else if provided = ["campaign_id"] then .campaignDetails (args.campaign_id.getD (""))
  else if requiredFields.all (fun f => provided.contains f) then .createOrUpdate args
  else .usageError usageMessage

/-- The classification asserted by the specification (claim C1), written from
the spec's words: no fields → list all; only `campaign_id` → fetch one; all
five creation fields (with or without `campaign_id`) → create-or-update; any
other combination → the usage error.  This definition follows the spec, to be
compared with `process_campaign_request`, which follows the code. -/
def claimedDispatchShape (args : Args) : CampaignRequestAction :=
  if args.campaign_id = none ∧ args.subject = none ∧ args.sender = none ∧
     args.receivers_file_path = none ∧ args.html_body_file_path = none ∧
     args.scheduled_at = none then
    .listCampaigns
  else if args.campaign_id.isSome ∧ args.subject = none ∧ args.sender = none ∧
     args.receivers_file_path = none ∧ args.html_body_file_path = none ∧
     args.scheduled_at = none then
    .campaignDetails (args.campaign_id.getD (""))
  else if args.subject.isSome ∧ args.sender.isSome ∧
     args.receivers_file_path.isSome ∧ args.html_body_file_path.isSome ∧
     args.scheduled_at.isSome then
    .createOrUpdate args
  else
    .usageError usageMessage

/-! ## Remote state and call trace for the campaign workflow -/

/-- A verified sender as returned by `marketing.senders.get`
(`sender['id']` and `sender['from']['email']`). -/
structure Sender where
  id : Nat
  email : String
deriving DecidableEq, Repr

/-- A contact list as returned by `marketing.lists.get` (`id` and `name`). -/
structure SGList where
  id : String
  name : String
deriving DecidableEq, Repr

/-- One entry of the list built by `get_campaign_list`: the remote
singlesend's `id`, `name` (exposed under the key `subject`), `send_at`
(exposed as `scheduled_at`), the resolved sender email (`from`), and the
remote `status` (the key is always present, its value may be `None`). -/
structure CampaignInfo where
  campaign_id : String
  subject : String
  scheduled_at : String
  from_email : String
  status : Option String
deriving DecidableEq, Repr

/-- The dictionary returned by `get_campaign_details` for an existing
campaign.  `create_or_update_campaign` only ever reads its `status` key;
the other keys are carried by the Python dict but never inspected by the
embedded workflow, so they are not modelled. -/
structure CampaignDetails where
  status : Option String
deriving DecidableEq, Repr

/-- One remote SendGrid call made by the campaign workflow.  Payloads are not
recorded; the constructor identifies the endpoint (and resource id). -/
inductive ApiCall where
  /-- The `marketing.singlesends._(id).get` (via `get_campaign_details`) -/
  | getDetails (id : String)
  /-- The `marketing.singlesends.get` (via `get_campaign_list`) -/
  | listCampaigns
  /-- The `marketing.senders.get` (via `get_sender_id`) -/
  | sendersGet
  /-- The `asm.groups.get` -/
  | groupsGet
  /-- The `asm.groups.post` -/
  | groupsPost
  /-- The `marketing.lists.get` (via `get_existing_lists`) -/
  | listsGet
  /-- The `marketing.lists.post` -/
  | listsPost (name : String)
  /-- The `marketing.contacts.put` -/
  | contactsPut (listId : String)
  /-- The `marketing.singlesends.post` — creates a new campaign resource -/
  | postSinglesend
  /-- The `marketing.singlesends._(id).patch` — updates an existing campaign -/
  | patchSinglesend (id : String)
  /-- The `marketing.singlesends._(id).schedule.put` -/
  | schedulePut (id : String)
deriving DecidableEq, Repr

/-- The environment of the campaign workflow: remote SendGrid state, the
local filesystem, and the clock.  `none`/`false` in a response field models
the corresponding call failing (an exception or an empty/invalid body). -/
structure Env where
  /-- result of `get_campaign_details id` (`none` = campaign not found or
  API error, in which case the helper returns `None`) -/
  campaignDetails : String → Option CampaignDetails
  /-- result of `get_campaign_list` (`[]` also on API failure) -/
  campaigns : List CampaignInfo
  /-- receivers files, as lists of lines -/
  fs : String → Option (List String)
  /-- HTML body files, as their text -/
  htmlFiles : String → Option String
  /-- body of `marketing.senders.get` (`none` = exception or empty response) -/
  sendersGet : Option (List Sender)
  /-- suppression group ids from `asm.groups.get` (`[]` also on failure) -/
  groups : List Nat
  /-- The `asm.groups.post`: `none` = exception or empty body (raises);
  `some g` = parsed body whose `id` field is `g` (possibly absent) -/
  groupsPost : Option (Option Nat)
  /-- body of `marketing.lists.get` (`none` = exception or empty response,
  which `get_existing_lists` swallows into `[]`) -/
  listsGet : Option (List SGList)
  /-- The `marketing.lists.post`: `none` = exception, empty body or missing id -/
  listsPost : Option String
  /-- whether `marketing.contacts.put` answers with status 200/201/202 -/
  contactsPutOk : Bool
  /-- The `marketing.singlesends.post`: `none` = exception or empty body;
  `some x` = parsed body with optional `id` field `x` -/
  postResponse : Option (Option String)
  /-- whether `marketing.singlesends._(id).patch` succeeds (no exception) -/
  patchOk : Bool
  /-- whether scheduling succeeds (a failure is only a printed warning) -/
  scheduleOk : Bool
  /-- The `datetime.now().strftime('%Y%m%d_%H%M%S')` -/
  now : String

/-! ## api/campaign.py -/

/-- The `get_existing_lists` (api/campaign.py lines 13-38): fetch all contact
lists and keep those whose name starts with the given prefix; any exception
or empty response yields `[]` (the error is swallowed with a printed
warning). -/
def get_existing_lists (env : Env) (pre : String) : List SGList :=
  match env.listsGet with
  | none => []
  | some lists => lists.filter (fun lst => strStartsWith lst.name pre)

/-- The name prefix used for list reuse: `list_name.split(' - ')[0]`, i.e.
the text before the first `" - "` (the whole name when the separator is
absent). -/
def splitBase (list_name : String) : String :=
  String.mk (takeBeforeSep list_name.data)

/-- The `create_contacts_list` (api/campaign.py lines 75-132).  The base name is
`list_name.split(' - ')[0]`, i.e. the text before the first `" - "`.  If any
existing list matches that prefix, the *first* match of the response is
reused; otherwise a new list is created.  All contacts are then upserted in
one `contacts.put` call.  Any exception inside the body is caught and `none`
is returned.  The second component is the trace of remote calls made. -/
def create_contacts_list (env : Env) (list_name : String)
    (contacts : List String) : Option String × List ApiCall :=
  match get_existing_lists env (splitBase list_name) with
  | lst0 :: _ =>
    if env.contactsPutOk then (some lst0.id, [.listsGet, .contactsPut lst0.id])
    else (none, [.listsGet, .contactsPut lst0.id])
  | [] =>
    match env.listsPost with
    | none => (none, [.listsGet, .listsPost list_name])
    | some lid =>
      if lid = "" then (none, [.listsGet, .listsPost list_name])
      else if env.contactsPutOk then
        (some lid, [.listsGet, .listsPost list_name, .contactsPut lid])
      else (none, [.listsGet, .listsPost list_name, .contactsPut lid])

/-- The `check_existing_campaign` (api/campaign.py lines 291-306): the first
campaign of `get_campaign_list` whose `subject` equals the given one.
A `None` subject never matches (Python `None == str` is false). -/
def check_existing_campaign (env : Env) (subject : Option String) : Option CampaignInfo :=
  match subject with
  | some subj => env.campaigns.find? (fun c => c.subject == subj)
  | none => none

/-- The `get_default_suppression_group` (api/campaign.py lines 155-183): the first
existing group's id, else create one; an exception or empty body on the
create raises, and a create response without an `id` key returns `None`. -/
def get_default_suppression_group (env : Env) :
    Except CampaignError (Option Nat) × List ApiCall :=
  match env.groups with
  | g :: _ => (.ok (some g), [.groupsGet])
  | [] =>
    match env.groupsPost with
    | none => (.error .suppressionGroupApi, [.groupsGet, .groupsPost])
    | some gid => (.ok gid, [.groupsGet, .groupsPost])

/-! ## api/sender.py and utils/date_utils.py -/

/-- The `get_sender_id` (api/sender.py): a falsy email returns `None` without any
API call; otherwise the verified sender with that exact `from.email` is looked
up, raising on an empty response or when no sender matches. -/
def get_sender_id (env : Env) (sender_email : Option String) :
    Except CampaignError (Option Nat) × List ApiCall :=
  if truthyOpt sender_email then
    match env.sendersGet with
    | none => (.error .senderApi, [.sendersGet])
    | some senders =>
      match senders.find? (fun s => s.email == sender_email.getD ("")) with
      | some s => (.ok (some s.id), [.sendersGet])
      | none => (.error (.senderNotFound (sender_email.getD (""))), [.sendersGet])
  else (.ok none, [])

/-- Shape check for `strptime(time_str, "%Y-%m-%d %H:%M:%S")`: nineteen
characters `dddd-dd-dd dd:dd:dd`.  (CPython's `strptime` additionally checks
field ranges and tolerates un-padded fields; no claim depends on that
leniency, and the canonical zero-padded format is accepted identically.) -/
def validScheduleFormat (s : String) : Bool :=
  match s.data with
  | [y1, y2, y3, y4, h1, m1, m2, h2, d1, d2, sp, hh1, hh2, c1, mi1, mi2, c2, s1, s2] =>
    y1.isDigit && y2.isDigit && y3.isDigit && y4.isDigit && h1 == '-' &&
    m1.isDigit && m2.isDigit && h2 == '-' && d1.isDigit && d2.isDigit &&
    sp == ' ' && hh1.isDigit && hh2.isDigit && c1 == ':' && mi1.isDigit &&
    mi2.isDigit && c2 == ':' && s1.isDigit && s2.isDigit
  | _ => false

/-- The `parse_schedule_time` (utils/date_utils.py): parse
`"YYYY-MM-DD HH:MM:SS"` and re-render as `"YYYY-MM-DDTHH:MM:SSZ"` (no
timezone conversion: the date and time digits pass through unchanged). -/
def parse_schedule_time (time_str : String) : Except CampaignError String :=
  if validScheduleFormat time_str then
    .ok (String.mk (time_str.data.take 10) ++ ("T") ++
         String.mk (time_str.data.drop 11) ++ ("Z"))
  else .error (.badScheduleTime time_str)

/-- The schedule argument as used by `create_or_update_campaign`:
`strptime(None, ...)` raises. -/
def parse_scheduled_at : Option String → Except CampaignError String
  | none => .error (.badScheduleTime ("None"))
  | some s => parse_schedule_time s

/-! ## campaign_manager.py — create_or_update_campaign -/

/-- The `read_html_content` (utils/file_utils.py): `open()` raises on a missing
file and on a `None` path. -/
def read_html_content (env : Env) (file_path : Option String) :
    Except CampaignError String :=
  match file_path with
  | none => .error (.fileError ("None"))
  | some p =>
    match env.htmlFiles p with
    | none => .error (.fileError p)
    | some content => .ok content

/-- The message of the `ValueError` raised when a campaign with the same
subject already exists (campaign_manager.py lines 28-37).  The `status` key
is always present in the dict built by `get_campaign_list`, so the
`.get('status', 'Unknown')` default never fires and a `None` value renders
as `None`. -/
def conflictMessage (subj : String) (c : CampaignInfo) : String :=
  "A campaign with the subject \x27" ++ subj ++
  "\x27 already exists.\nExisting campaign details:\n- Campaign ID: " ++
  c.campaign_id ++ "\n- Subject: " ++ c.subject ++ "\n- Scheduled At: " ++
  c.scheduled_at ++ "\n- From: " ++ c.from_email ++ "\n- Status: " ++
  optStr c.status ++ "\nTo update this campaign, please provide its campaign_id."

/-- The message of the `ValueError` raised when an update is attempted on a
non-draft campaign (campaign_manager.py lines 19-22). -/
def invalidStateMessage (status : Option String) : String :=
  "Campaign cannot be updated because its status is \x27" ++ optStr status ++
  "\x27.\nOnly campaigns in \x27draft\x27 status can be updated."

/-- The singlesend request body built by `create_or_update_campaign`
(campaign_manager.py lines 62-84); campaign-level click/open/subscription
tracking is explicitly disabled. -/
structure CampaignBody where
  name : String
  subject : String
  html_content : String
  sender_id : Option Nat
  suppression_group_id : Option Nat
  click_tracking : Bool
  open_tracking : Bool
  subscription_tracking : Bool
  list_ids : List String
deriving DecidableEq, Repr

/-- Construction of the campaign request body. -/
def mkCampaignBody (args : Args) (html : String) (sender_id : Option Nat)
    (sg : Option Nat) (list_id : String) : CampaignBody :=
  { name := optStr args.subject
    subject := optStr args.subject
    html_content := html
    sender_id := sender_id
    suppression_group_id := sg
    click_tracking := false
    open_tracking := false
    subscription_tracking := false
    list_ids := [list_id] }

/-- The `try` block of `create_or_update_campaign` (lines 86-118): PATCH when
a truthy `campaign_id` was given, else POST and extract the new id from the
response; then schedule (failure only warns) and fetch final details. -/
def couSend (env : Env) (args : Args) : Except CampaignError String × List ApiCall :=
  if truthyOpt args.campaign_id then
    let cid := args.campaign_id.getD ("")
    if env.patchOk then
      (.ok cid, [.patchSinglesend cid, .schedulePut cid, .getDetails cid])
    else (.error .patchApi, [.patchSinglesend cid])
  else
    match env.postResponse with
    | none =>
      (.error (.postApi ("Empty response from SendGrid API when creating campaign")),
       [.postSinglesend])
    | some none => (.error (.postApi ("No campaign ID in response")), [.postSinglesend])
    | some (some ncid) =>
      if ncid = "" then (.error (.postApi ("No campaign ID in response")), [.postSinglesend])
      else (.ok ncid, [.postSinglesend, .schedulePut ncid, .getDetails ncid])

/-- The body of `create_or_update_campaign` after the two pre-checks (lines
39-118): parse the receivers file, read the HTML body, resolve the sender,
parse the schedule time, resolve the suppression group, create the contacts
list (raising `Failed to create contacts list` on a falsy result), build the
request body (a pure computation, modelled by `mkCampaignBody`), and send. -/
def couMain (env : Env) (args : Args) : Except CampaignError String × List ApiCall :=
  match parse_receivers_file args.receivers_file_path env.fs with
  | .error e => (.error e, [])
  | .ok receivers =>
    match read_html_content env args.html_body_file_path with
    | .error e => (.error e, [])
    | .ok _html =>
      match get_sender_id env args.sender with
      | (.error e, t1) => (.error e, t1)
      | (.ok _sender_id, t1) =>
        match parse_scheduled_at args.scheduled_at with
        | .error e => (.error e, t1)
        | .ok _schedule_time =>
          match get_default_suppression_group env with
          | (.error e, t2) => (.error e, t1 ++ t2)
          | (.ok _suppression_group_id, t2) =>
            match create_contacts_list env
                (("List for (") ++ optStr args.subject ++ (") - ") ++ env.now)
                receivers with
            | (none, t3) => (.error .listCreationFailed, t1 ++ t2 ++ t3)
            | (some list_id, t3) =>
              if list_id = "" then (.error .listCreationFailed, t1 ++ t2 ++ t3)
              else
                ((couSend env args).1, t1 ++ t2 ++ t3 ++ (couSend env args).2)

/-- The `create_or_update_campaign` (campaign_manager.py lines 11-133).  With a
truthy `campaign_id` the current details are fetched first and a non-`draft`
status raises; with a falsy `campaign_id` an existing campaign with the same
subject raises a conflict.  Then `couMain` runs. -/
def create_or_update_campaign (env : Env) (args : Args) :
    Except CampaignError String × List ApiCall :=
  if truthyOpt args.campaign_id then
    match env.campaignDetails (args.campaign_id.getD ("")) with
    | some d =>
      if d.status = some ("draft") then
        ((couMain env args).1,
         .getDetails (args.campaign_id.getD ("")) :: (couMain env args).2)
      else (.error (.invalidState d.status), [.getDetails (args.campaign_id.getD (""))])
    | none =>
      ((couMain env args).1,
       .getDetails (args.campaign_id.getD ("")) :: (couMain env args).2)
  else
    match check_existing_campaign env args.subject with
    | some c =>
      (.error (.conflict (conflictMessage (optStr args.subject) c)), [.listCampaigns])
    | none =>
      ((couMain env args).1, .listCampaigns :: (couMain env args).2)

/-! ## eml_extractor.py — image pipeline and HTML rewrite -/

/-- The Azure configuration fields read by the extractor. -/
structure AzureConfig where
  account_name : String
  container_name : String
  blob_path : String
deriving DecidableEq, Repr

/-- The `get_azure_blob_url` (eml_extractor.py lines 17-19). -/
def get_azure_blob_url (config : AzureConfig) (blob_name : String) : String :=
  ("https://") ++ config.account_name ++ (".blob.core.windows.net/") ++
  config.container_name ++ ("/") ++ config.blob_path ++ ("/") ++ blob_name

/-- An inline image part extracted from the email: raw bytes and its MIME
content type (e.g. `image/png`). -/
structure ImagePart where
  data : List Nat
  mime : String
deriving DecidableEq, Repr

/-- An HTML `img` element, as its attribute dictionary.  Python dicts (and
BeautifulSoup tags) keep insertion order and unique keys; assignment updates
in place, deletion removes. -/
structure ImgTag where
  attrs : List (String × String)
deriving DecidableEq, Repr

/-- First value bound to key `k` in an attribute list. -/
def lookupAttr (k : String) : List (String × String) → Option String
  | [] => none
  | p :: rest => if p.1 == k then some p.2 else lookupAttr k rest

/-- Attribute lookup (`img_tag.get(k)` / `img_tag[k]`). -/
def ImgTag.getAttr (t : ImgTag) (k : String) : Option String :=
  lookupAttr k t.attrs

/-- Attribute assignment (`img_tag[k] = v`): update in place when the key
exists, else append. -/
def ImgTag.setAttr (t : ImgTag) (k v : String) : ImgTag :=
  if t.attrs.any (fun p => p.1 == k) then
    ⟨t.attrs.map (fun p => if p.1 == k then (k, v) else p)⟩
  else ⟨t.attrs ++ [(k, v)]⟩

/-- Deletion of every attribute whose key is not in `allowed`
(`for attr in list(img_tag.attrs): if attr not in allowed_attrs: del ...`). -/
def ImgTag.keepAttrs (t : ImgTag) (allowed : List String) : ImgTag :=
  ⟨t.attrs.filter (fun p => allowed.contains p.1)⟩

/-- The environment of the extractor: image compression (PIL), blob upload,
the MD5 hex digest, the `mimetypes` extension table, and the clock. -/
structure ExtractEnv where
  /-- The `compress_image`: `none` = the PIL pipeline raised -/
  compress : List Nat → Option (List Nat)
  /-- The `upload_to_azure` success for a given blob file name and bytes -/
  upload : String → List Nat → Bool
  /-- The `hashlib.md5(bytes).hexdigest()` -/
  md5hex : List Nat → String
  /-- The `mimetypes.guess_extension` -/
  guessExt : String → Option String
  /-- The `datetime.now().strftime('%Y%m%d_%H%M%S')` -/
  now : String

/-- The blob file name built by `process_image` (eml_extractor.py line 102):
`mail_campaigns/{base}_{index}_{timestamp}_{md5[:8]}{ext}`, with `.jpg` as
the fallback extension. -/
def mkImageFilename (env : ExtractEnv) (base : String) (index : Nat)
    (cdata : List Nat) (mime : String) : String :=
  ("mail_campaigns/") ++ base ++ ("_") ++ toString index ++ ("_") ++ env.now ++
  ("_") ++ String.mk ((env.md5hex cdata).data.take 8) ++
  ((env.guessExt mime).getD (".jpg"))

/-- The tag rewrite performed by `process_image` once the CDN URL is known
(eml_extractor.py lines 107-117): point `src` at the URL, collapse *truthy*
`width`/`height` into an inline style (the Python guard is
`img_tag.get('width') and img_tag.get('height')`: truthiness, so an empty
width or height attribute skips the style), then delete every attribute but
`src`, `alt` and `style`. -/
def rewrittenImgTag (img : ImgTag) (cdn_url : String) : ImgTag :=
  ImgTag.keepAttrs
    (if (((img.setAttr ("src") cdn_url).getAttr ("width")).getD ("") != "") &&
        (((img.setAttr ("src") cdn_url).getAttr ("height")).getD ("") != "") then
      (img.setAttr ("src") cdn_url).setAttr ("style")
        (("width:") ++ ((img.setAttr ("src") cdn_url).getAttr ("width")).getD ("") ++
         ("px;height:") ++
         ((img.setAttr ("src") cdn_url).getAttr ("height")).getD ("") ++ ("px"))
     else img.setAttr ("src") cdn_url)
    ["src", "alt", "style"]

/-- The `process_image` (eml_extractor.py lines 93-119): compress, upload, and
rewrite the tag.  `none` models the compression (`ValueError`) or upload
(`AzureStorageError`) exception. -/
def process_image (env : ExtractEnv) (config : AzureConfig) (img : ImgTag)
    (part : ImagePart) (base : String) (index : Nat) : Option (ImgTag × String) :=
  match env.compress part.data with
  | none => none
  | some cdata =>
    if env.upload (mkImageFilename env base index cdata part.mime) cdata then
      some (rewrittenImgTag img
              (get_azure_blob_url config (mkImageFilename env base index cdata part.mime)),
            mkImageFilename env base index cdata part.mime)
    else none

/-- The image-rewriting loop of `extract_html_from_eml` (lines 177-192) over
the document's `img` elements in document order: an element whose `src`
starts with `cid:` and whose content id (the `src` with every occurrence of
`cid:` removed, Python `str.replace`) is among the extracted parts is
processed with the current counter; on success the element is replaced, the
file name recorded, and the counter incremented; on failure or no match the
element is left unmodified and the counter unchanged.  Returns the rewritten
elements, the final counter, and the uploaded file names in order. -/
def processImages (env : ExtractEnv) (config : AzureConfig) (base : String)
    (image_data : List (String × ImagePart)) :
    List ImgTag → Nat → List ImgTag × Nat × List String
  | [], count => ([], count, [])
  | img :: rest, count =>
    if strStartsWith ((img.getAttr ("src")).getD ("")) ("cid:") then
      match image_data.lookup (replaceCid ((img.getAttr ("src")).getD (""))) with
      | some part =>
        match process_image env config img part base count with
        | some (t, filename) =>
          (t :: (processImages env config base image_data rest (count + 1)).1,
           (processImages env config base image_data rest (count + 1)).2.1,
           filename :: (processImages env config base image_data rest (count + 1)).2.2)
        | none =>
          (img :: (processImages env config base image_data rest count).1,
           (processImages env config base image_data rest count).2.1,
           (processImages env config base image_data rest count).2.2)
      | none =>
        (img :: (processImages env config base image_data rest count).1,
         (processImages env config base image_data rest count).2.1,
         (processImages env config base image_data rest count).2.2)
    else
      (img :: (processImages env config base image_data rest count).1,
       (processImages env config base image_data rest count).2.1,
       (processImages env config base image_data rest count).2.2)

/-- The image loop as entered by `extract_html_from_eml`: `image_count`
starts at 1. -/
def extract_images (env : ExtractEnv) (config : AzureConfig) (base : String)
    (image_data : List (String × ImagePart)) (imgs : List ImgTag) :
    List ImgTag × Nat × List String :=
  processImages env config base image_data imgs 1

/-- The transformation the loop applies to a single element when the counter
is `idx`: rewritten on a cid match with successful processing, unchanged
otherwise.  (`processImages` is pointwise equal to this, for a suitable
per-element counter value; see `processImages_get?`.) -/
def imageStepTag (env : ExtractEnv) (config : AzureConfig) (base : String)
    (image_data : List (String × ImagePart)) (idx : Nat) (img : ImgTag) : ImgTag :=
  if strStartsWith ((img.getAttr ("src")).getD ("")) ("cid:") then
    match image_data.lookup (replaceCid ((img.getAttr ("src")).getD (""))) with
    | some part =>
      match process_image env config img part base idx with
      | some (t, _) => t
      | none => img
    | none => img
  else img

/-! ## Concrete environments used by witnesses and counterexamples -/

/-- A remote state on which every step of campaign creation succeeds. -/
def envBase : Env := {
  campaignDetails := fun _ => none
  campaigns := []
  fs := fun p => if p = "receivers.txt" then some ["Ann Lee <ann@example.com>"] else none
  htmlFiles := fun p => if p = "body.html" then some ("<p>hi</p>") else none
  sendersGet := some [⟨7, "ann@example.com"⟩]
  groups := [3]
  groupsPost := none
  listsGet := some []
  listsPost := some ("L1")
  contactsPutOk := true
  postResponse := some (some ("SS9"))
  patchOk := true
  scheduleOk := true
  now := "20240101_000000" }

/-- A full set of creation arguments, without a campaign id. -/
def argsCreate : Args :=
  ⟨none, some ("Hello"), some ("ann@example.com"), some ("receivers.txt"),
   some ("body.html"), some ("2024-03-15 14:30:00")⟩

/-- The `envBase` with campaign `SS1` present remotely in status `sent`. -/
def envSent : Env :=
  { envBase with
    campaignDetails := fun cid => if cid = "SS1" then some ⟨some ("sent")⟩ else none }

/-- The `envBase` with an existing campaign whose subject is `Hello`. -/
def envConflict : Env :=
  { envBase with
    campaigns := [⟨"SS1", "Hello", "2024-03-20T10:00:00Z", "ann@example.com", some ("draft")⟩] }

/-- The `envBase` with two contact lists sharing the prefix `List for Foo`; the
list that comes *first* in the provider's response carries the *older*
timestamp suffix. -/
def envListsTwo : Env :=
  { envBase with
    listsGet := some [⟨"A", "List for Foo - 20240101_000000"⟩,
                      ⟨"B", "List for Foo - 20240601_000000"⟩] }

/-- The `envBase` with a single existing list `List for Foo - 20231231_000000`. -/
def envListsOne : Env :=
  { envBase with listsGet := some [⟨"LID42", "List for Foo - 20231231_000000"⟩] }

/-- The `envBase` except that the contact-list lookup (`marketing.lists.get`)
raises; everything else still succeeds. -/
def envLookupFail : Env := { envBase with listsGet := none }

/-- The `envBase` except that the batch contact upsert fails. -/
def envPutFail : Env := { envBase with contactsPutOk := false }

/-- Extractor configuration for the concrete scenarios. -/
def cfgDemo : AzureConfig := ⟨"acct", "imgs", "mail"⟩

/-- An extractor environment: compression fails exactly on the byte string
`[9]`, uploads always succeed. -/
def envImg : ExtractEnv := {
  compress := fun d => if d = [9] then none else some d
  upload := fun _ _ => true
  md5hex := fun _ => "0123456789abcdef0123456789abcdef"
  guessExt := fun m => if m = "image/png" then some (".png") else none
  now := "20240101_000000" }

/-- Three extracted inline image parts; the part with content id `mid` has
the bytes on which compression fails. -/
def imgData : List (String × ImagePart) :=
  [("logo", ⟨[1, 2], "image/png"⟩), ("mid", ⟨[9], "image/gif"⟩),
   ("foot", ⟨[3], "image/jpeg"⟩)]

/-- Five `img` elements: a matched one with dimensions and an extra
attribute, a matched one whose processing fails, another matched one, one
with an unknown content id, and one with a non-`cid:` source. -/
def imgsDemo : List ImgTag :=
  [⟨[("src", "cid:logo"), ("width", "600"), ("height", "300"),
     ("border", "1"), ("alt", "Logo")]⟩,
   ⟨[("src", "cid:mid")]⟩,
   ⟨[("src", "cid:foot")]⟩,
   ⟨[("src", "cid:ghost")]⟩,
   ⟨[("src", "https://x/y.png")]⟩]

/-- A single matched `img` element whose `width` attribute is present but
empty (and whose `height` is present and non-empty). -/
def imgEmptyWidth : ImgTag := ⟨[("src", "cid:logo"), ("width", ""), ("height", "300")]⟩

/-! ## Theorems -/

deriving instance DecidableEq for Except

/-- A call trace that contains neither a campaign-create (`POST`) nor a
campaign-update (`PATCH`) call. -/
def sendFree (t : List ApiCall) : Prop :=
  ApiCall.postSinglesend ∉ t ∧ ∀ cid, ApiCall.patchSinglesend cid ∉ t

theorem sendFree_append {s t : List ApiCall} (hs : sendFree s) (ht : sendFree t) :
    sendFree (s ++ t) := by
  constructor
  · simp [List.mem_append, hs.1, ht.1]
  · intro cid
    simp [List.mem_append, hs.2 cid, ht.2 cid]

theorem sendFree_cons_of {a : ApiCall} {t : List ApiCall}
    (ha1 : a ≠ ApiCall.postSinglesend)
    (ha2 : ∀ cid, a ≠ ApiCall.patchSinglesend cid) (ht : sendFree t) :
    sendFree (a :: t) := by
  constructor
  · simp [List.mem_cons, ht.1]
    intro hc
    exact ha1 hc.symm
  · intro cid
    simp [List.mem_cons, ht.2 cid]
    intro hc
    exact ha2 cid hc.symm

theorem sender_send_free (env : Env) (e : Option String) :
    sendFree (get_sender_id env e).2 := by
  unfold get_sender_id
  split <;> (try split) <;> (try split) <;> simp [sendFree]

theorem sup_send_free (env : Env) :
    sendFree (get_default_suppression_group env).2 := by
  unfold get_default_suppression_group
  split <;> (try split) <;> simp [sendFree]

theorem clc_send_free (env : Env) (nm : String) (cts : List String) :
    sendFree (create_contacts_list env nm cts).2 := by
  unfold create_contacts_list
  split <;> (try split) <;> (try split) <;> (try split) <;> simp [sendFree]

theorem couSend_post_free (env : Env) (args : Args)
    (h : truthyOpt args.campaign_id = true) :
    ApiCall.postSinglesend ∉ (couSend env args).2 := by
  unfold couSend
  split <;> (try split) <;> (try split) <;> (try split) <;> simp_all

theorem couSend_patch_free (env : Env) (args : Args)
    (h : truthyOpt args.campaign_id = false) :
    ∀ cid, ApiCall.patchSinglesend cid ∉ (couSend env args).2 := by
  intro cid
  unfold couSend
  split <;> (try split) <;> (try split) <;> (try split) <;> simp_all

theorem couMain_trace_split (env : Env) (args : Args) :
    sendFree (couMain env args).2 ∨
    (∃ t recv lid,
      parse_receivers_file args.receivers_file_path env.fs = .ok recv ∧
      (create_contacts_list env
        (("List for (") ++ optStr args.subject ++ (") - ") ++ env.now) recv).1 = some lid ∧
      lid ≠ "" ∧ sendFree t ∧
      (couMain env args).2 = t ++ (couSend env args).2) := by
  unfold couMain
  split
  next e heq => left; simp [sendFree]
  next recv heq =>
    split
    next e2 heq2 => left; simp [sendFree]
    next html heq2 =>
      split
      next e3 t1 heq3 =>
        left
        have h1 := sender_send_free env args.sender
        rw [heq3] at h1
        exact h1
      next sid t1 heq3 =>
        have h1 : sendFree t1 := by
          have hx := sender_send_free env args.sender
          rw [heq3] at hx
          exact hx
        split
        next e4 heq4 => left; exact h1
        next st heq4 =>
          split
          next e5 t2 heq5 =>
            left
            have h2 := sup_send_free env
            rw [heq5] at h2
            exact sendFree_append h1 h2
          next sg t2 heq5 =>
            have h2 : sendFree t2 := by
              have hx := sup_send_free env
              rw [heq5] at hx
              exact hx
            split
            next t3 heq6 =>
              left
              have h3 := clc_send_free env
                (("List for (") ++ optStr args.subject ++ (") - ") ++ env.now) recv
              rw [heq6] at h3
              exact sendFree_append (sendFree_append h1 h2) h3
            next lid t3 heq6 =>
              have h3 : sendFree t3 := by
                have hx := clc_send_free env
                  (("List for (") ++ optStr args.subject ++ (") - ") ++ env.now) recv
                rw [heq6] at hx
                exact hx
              split
              next h0 =>
                left
                exact sendFree_append (sendFree_append h1 h2) h3
              next h0 =>
                right
                refine ⟨t1 ++ t2 ++ t3, recv, lid, heq, ?_, h0,
                  sendFree_append (sendFree_append h1 h2) h3, ?_⟩
                · rw [heq6]
                · simp [List.append_assoc]

theorem couMain_post_free (env : Env) (args : Args)
    (h : truthyOpt args.campaign_id = true) :
    ApiCall.postSinglesend ∉ (couMain env args).2 := by
  rcases couMain_trace_split env args with hsf | ⟨t, recv, lid, _, _, _, hsf, heq⟩
  · exact hsf.1
  · rw [heq]
    simp [List.mem_append, hsf.1, couSend_post_free env args h]

theorem couMain_patch_free (env : Env) (args : Args)
    (h : truthyOpt args.campaign_id = false) :
    ∀ cid, ApiCall.patchSinglesend cid ∉ (couMain env args).2 := by
  intro cid
  rcases couMain_trace_split env args with hsf | ⟨t, recv, lid, _, _, _, hsf, heq⟩
  · exact hsf.2 cid
  · rw [heq]
    simp [List.mem_append, hsf.2 cid, couSend_patch_free env args h cid]

theorem couMain_send_free_of_clc_none (env : Env) (args : Args)
    (hclc : ∀ nm cts, (create_contacts_list env nm cts).1 = none) :
    sendFree (couMain env args).2 := by
  rcases couMain_trace_split env args with hsf | ⟨t, recv, lid, _, hlid, _, _, _⟩
  · exact hsf
  · rw [hclc _ recv] at hlid
    exact absurd hlid (by simp)

theorem couc_post_free (env : Env) (args : Args)
    (h : truthyOpt args.campaign_id = true) :
    ApiCall.postSinglesend ∉ (create_or_update_campaign env args).2 := by
  have hmain := couMain_post_free env args h
  unfold create_or_update_campaign
  split
  · split
    next d heq =>
      split
      · simp [hmain]
      · simp
    next heq => simp [hmain]
  · next hn => exact absurd h hn

theorem couc_patch_free (env : Env) (args : Args)
    (h : truthyOpt args.campaign_id = false) :
    ∀ cid, ApiCall.patchSinglesend cid ∉ (create_or_update_campaign env args).2 := by
  intro cid
  have hmain := couMain_patch_free env args h cid
  unfold create_or_update_campaign
  split
  · next ht => rw [h] at ht; exact absurd ht (by simp)
  · split
    next c heq => simp
    next heq => simp [hmain]

theorem couc_send_free_of_clc_none (env : Env) (args : Args)
    (hclc : ∀ nm cts, (create_contacts_list env nm cts).1 = none) :
    sendFree (create_or_update_campaign env args).2 := by
  have hmain := couMain_send_free_of_clc_none env args hclc
  unfold create_or_update_campaign
  split
  · split
    next d heq =>
      split
      · exact sendFree_cons_of (by simp) (by simp) hmain
      · simp [sendFree]
    next heq => exact sendFree_cons_of (by simp) (by simp) hmain
  · split
    next c heq => simp [sendFree]
    next heq => exact sendFree_cons_of (by simp) (by simp) hmain

/-- Structural form of an email line acceptable to the claim: an arbitrary
prefix without `<`, the bracketed part without `<` or `>`, an arbitrary
tail.  Under these hypotheses `extract_email` returns the bracketed text
with surrounding whitespace stripped. -/
theorem extract_email_decomposed (a b c : String)
    (ha : ∀ ch ∈ a.data, ch ≠ '<')
    (hb1 : ∀ ch ∈ b.data, ch ≠ '<')
    (hb2 : ∀ ch ∈ b.data, ch ≠ '>') :
    extract_email (a ++ ("<") ++ b ++ (">") ++ c) = pyStrip b := by
  unfold extract_email
  have hdata : (a ++ ("<") ++ b ++ (">") ++ c).data
      = a.data ++ ('<' :: (b.data ++ ('>' :: c.data))) := by
    simp [List.append_assoc]
  rw [hdata]
  have ha2 : ∀ ch ∈ a.data, (ch != '<') = true := by
    intro ch hch
    simpa using ha ch hch
  rw [List.dropWhile_append_of_pos ha2]
  rw [List.dropWhile_cons_of_neg (by simp)]
  simp only [List.drop_succ_cons, List.drop_zero]
  have hb1b : ∀ ch ∈ b.data, (ch != '<') = true := by
    intro ch hch
    simpa using hb1 ch hch
  rw [List.takeWhile_append_of_pos hb1b]
  rw [List.takeWhile_cons_of_pos (by simp)]
  have hb2b : ∀ ch ∈ b.data, (ch != '>') = true := by
    intro ch hch
    simpa using hb2 ch hch
  rw [List.takeWhile_append_of_pos hb2b]
  rw [List.takeWhile_cons_of_neg (by simp)]
  simp [pyStrip]

/-- Claim C6 (corrected): the code does not return "exactly the substring
strictly between the first `<` and the first `>` following it" — it also
strips surrounding whitespace (`.strip()`).  On the line
`John < john@x.com >` the substring strictly between the brackets is
`" john@x.com ("`, but the code yields `")john@x.com"`. -/
theorem receivers_strip_counterexample :
    parse_receivers_file (some ("r.txt"))
      (fun p => if p = "r.txt" then some ["John < john@x.com >"] else none)
      = .ok ["john@x.com"] ∧
    ("john@x.com" : String) ≠ " john@x.com " := by
  constructor
  · decide
  · decide

/-- Claim C6 (amended): a line contributes a recipient exactly when it
contains both `<` and `>`; for a line of the shape `a<b>c` (no `<` in `a` or
`b`, no `>` in `b`) the extracted address is `b` with surrounding whitespace
stripped; a line missing either bracket is silently ignored. -/
theorem receivers_line_extraction (p a b c bad : String)
    (fs : String → Option (List String))
    (hp : p ≠ "")
    (hfs : fs p = some [a ++ ("<") ++ b ++ (">") ++ c, bad])
    (ha : ∀ ch ∈ a.data, ch ≠ '<')
    (hb1 : ∀ ch ∈ b.data, ch ≠ '<')
    (hb2 : ∀ ch ∈ b.data, ch ≠ '>')
    (hbad : '<' ∉ bad.data ∨ '>' ∉ bad.data) :
    parse_receivers_file (some p) fs = .ok [pyStrip b] := by
  simp only [parse_receivers_file]
  rw [if_neg hp, hfs]
  have hgood : '<' ∈ (a ++ ("<") ++ b ++ (">") ++ c).data ∧
      '>' ∈ (a ++ ("<") ++ b ++ (">") ++ c).data := by
    constructor <;> simp
  have hbadcond : ¬ ('<' ∈ bad.data ∧ '>' ∈ bad.data) := by
    rcases hbad with h | h <;> intro hc
    · exact h hc.1
    · exact h hc.2
  simp only [List.filterMap_cons, if_pos hgood, if_neg hbadcond, List.filterMap_nil]
  rw [extract_email_decomposed a b c ha hb1 hb2]

/-- Witness for C6 (amended), at the line `John < ann@x.io > tail` followed
by a bracketless line. -/
theorem receivers_line_extraction_witness :
    parse_receivers_file (some ("r.txt"))
      (fun p => if p = "r.txt" then some ["John < ann@x.io > tail", "no brackets"] else none)
      = .ok ["ann@x.io"] := by
  have h := receivers_line_extraction ("r.txt") ("John ") (" ann@x.io ") (" tail") ("no brackets")
    (fun p => if p = "r.txt" then some ["John < ann@x.io > tail", "no brackets"] else none)
    (by decide) (by decide) (by decide) (by decide) (by decide) (by decide)
  rw [h]
  have htrim : pyStrip (" ann@x.io ") = "ann@x.io" := by decide
  rw [htrim]

/-- Claim C1 (counterexample): `--campaign-id ""` is *provided* (`is not
None`), so with all five creation fields it is classified into the
create-or-update shape — but `create_or_update_campaign` tests the id with
Python truthiness, so the workflow POSTs a brand-new campaign (id `SS9`
here) and never PATCHes: "with all five creation fields plus campaign_id it
updates that campaign" fails at `campaign_id = ""`. -/
theorem empty_campaign_id_creates :
    providedArgs { argsCreate with campaign_id := some ("") } =
      ["campaign_id", "subject", "sender", "html_body_file_path",
       "scheduled_at", "receivers_file_path"] ∧
    process_campaign_request { argsCreate with campaign_id := some ("") } =
      .createOrUpdate { argsCreate with campaign_id := some ("") } ∧
    (create_or_update_campaign envBase { argsCreate with campaign_id := some ("") }).1 =
      .ok ("SS9") ∧
    ApiCall.postSinglesend ∈
      (create_or_update_campaign envBase { argsCreate with campaign_id := some ("") }).2 ∧
    ApiCall.patchSinglesend ("") ∉
      (create_or_update_campaign envBase { argsCreate with campaign_id := some ("") }).2 := by
  refine ⟨by decide, by decide, by decide, by decide, by decide⟩

/-- Claim C1 (amended): `process_campaign_request` classifies the provided
(`is not None`) fields into exactly the four claimed shapes — none → list
all; only `campaign_id` → fetch one; all five creation fields → the
create-or-update workflow; anything else → the usage error describing the
four shapes.  Within the workflow the create/update split is decided by
*truthiness* of `campaign_id`: a truthy id never creates (no POST) and a
falsy id — `None` or the empty string, even when provided — never updates
(no PATCH). -/
theorem campaign_request_classification (env : Env) (args : Args) :
    process_campaign_request args = claimedDispatchShape args ∧
    (truthyOpt args.campaign_id = true →
      ApiCall.postSinglesend ∉ (create_or_update_campaign env args).2) ∧
    (truthyOpt args.campaign_id = false →
      ∀ cid, ApiCall.patchSinglesend cid ∉ (create_or_update_campaign env args).2) := by
  refine ⟨?_, fun h => couc_post_free env args h, fun h => couc_patch_free env args h⟩
  obtain ⟨c, s, se, rp, hb, sa⟩ := args
  rcases c with _ | c <;> rcases s with _ | s <;> rcases se with _ | se <;>
    rcases rp with _ | rp <;> rcases hb with _ | hb <;> rcases sa with _ | sa <;> rfl

/-- Witness for C1 (amended): the classification at a concrete full
argument set, no POST on an update request, no PATCH on a create request. -/
theorem campaign_request_classification_witness :
    process_campaign_request argsCreate = claimedDispatchShape argsCreate ∧
    ApiCall.postSinglesend ∉
      (create_or_update_campaign envSent { argsCreate with campaign_id := some ("SS1") }).2 ∧
    ApiCall.patchSinglesend ("X") ∉ (create_or_update_campaign envBase argsCreate).2 :=
  ⟨(campaign_request_classification envBase argsCreate).1,
   (campaign_request_classification envSent
      { argsCreate with campaign_id := some ("SS1") }).2.1 (by decide),
   (campaign_request_classification envBase argsCreate).2.2 (by decide) "X"⟩

/-- Claim C2 (confirmed): an update request with an explicit (truthy)
campaign id whose fetched remote details carry a status other than `draft`
fails with the invalid-state error; the details are fetched, and the PATCH
endpoint is never called. -/
theorem update_requires_draft (env : Env) (args : Args) (cid : String)
    (d : CampaignDetails)
    (hid : args.campaign_id = some cid) (hne : cid ≠ "")
    (hdet : env.campaignDetails cid = some d)
    (hstatus : d.status ≠ some ("draft")) :
    (create_or_update_campaign env args).1 = .error (.invalidState d.status) ∧
    ApiCall.getDetails cid ∈ (create_or_update_campaign env args).2 ∧
    ∀ x, ApiCall.patchSinglesend x ∉ (create_or_update_campaign env args).2 := by
  have ht : truthyOpt args.campaign_id = true := by
    rw [hid]
    simp [truthyOpt, hne]
  have hg : args.campaign_id.getD ("") = cid := by
    rw [hid]
    rfl
  unfold create_or_update_campaign
  rw [if_pos ht]
  simp only [hg, hdet]
  rw [if_neg hstatus]
  exact ⟨rfl, by simp, by simp⟩

/-- Witness for C2: updating campaign `SS1`, remotely in status `sent`,
fails with the invalid-state error without calling the PATCH endpoint. -/
theorem update_requires_draft_witness :
    (create_or_update_campaign envSent
      { argsCreate with campaign_id := some ("SS1") }).1 =
      .error (.invalidState (some ("sent"))) ∧
    ApiCall.getDetails ("SS1") ∈
      (create_or_update_campaign envSent { argsCreate with campaign_id := some ("SS1") }).2 ∧
    ApiCall.patchSinglesend ("SS1") ∉
      (create_or_update_campaign envSent { argsCreate with campaign_id := some ("SS1") }).2 :=
  have h := update_requires_draft envSent
    { argsCreate with campaign_id := some ("SS1") } "SS1" ⟨some ("sent")⟩
    rfl (by decide) (by decide) (by decide)
  ⟨h.1, h.2.1, h.2.2 "SS1"⟩

/-- Infix extraction from a three-way split of a string. -/
theorem data_infix_of_split (pre mid post whole : String)
    (h : whole = pre ++ mid ++ post) : mid.data <:+: whole.data := by
  subst h
  simp only [String.data_append]
  exact List.infix_append _ _ _

/-- Claim C3 (confirmed): a creation request (falsy campaign id) whose
subject matches an existing campaign fails with the conflict error; the
error message reports the existing campaign's id, subject, schedule, sender
and status, and no POST (campaign creation) call is made. -/
theorem duplicate_subject_conflict (env : Env) (args : Args) (subj : String)
    (c : CampaignInfo)
    (hid : truthyOpt args.campaign_id = false)
    (hsub : args.subject = some subj)
    (hfind : env.campaigns.find? (fun x => x.subject == subj) = some c) :
    (create_or_update_campaign env args).1 = .error (.conflict (conflictMessage subj c)) ∧
    c.campaign_id.data <:+: (conflictMessage subj c).data ∧
    c.subject.data <:+: (conflictMessage subj c).data ∧
    c.scheduled_at.data <:+: (conflictMessage subj c).data ∧
    c.from_email.data <:+: (conflictMessage subj c).data ∧
    (optStr c.status).data <:+: (conflictMessage subj c).data ∧
    ApiCall.postSinglesend ∉ (create_or_update_campaign env args).2 := by
  have hchk : check_existing_campaign env args.subject = some c := by
    unfold check_existing_campaign
    rw [hsub]
    exact hfind
  have hres : create_or_update_campaign env args =
      (.error (.conflict (conflictMessage subj c)), [.listCampaigns]) := by
    unfold create_or_update_campaign
    rw [if_neg (by simp [hid])]
    simp only [hchk]
    rw [hsub]
    rfl
  refine ⟨by rw [hres], ?_, ?_, ?_, ?_, ?_, by rw [hres]; simp⟩
  · exact data_infix_of_split
      ("A campaign with the subject \x27" ++ subj ++
        "\x27 already exists.\nExisting campaign details:\n- Campaign ID: ")
      c.campaign_id
      ("\n- Subject: " ++ c.subject ++ "\n- Scheduled At: " ++ c.scheduled_at ++
        "\n- From: " ++ c.from_email ++ "\n- Status: " ++ optStr c.status ++
        "\nTo update this campaign, please provide its campaign_id.") _
      (by simp [conflictMessage, String.append_assoc])
  · exact data_infix_of_split
      ("A campaign with the subject \x27" ++ subj ++
        "\x27 already exists.\nExisting campaign details:\n- Campaign ID: " ++
        c.campaign_id ++ "\n- Subject: ")
      c.subject
      ("\n- Scheduled At: " ++ c.scheduled_at ++ "\n- From: " ++ c.from_email ++
        "\n- Status: " ++ optStr c.status ++
        "\nTo update this campaign, please provide its campaign_id.") _
      (by simp [conflictMessage, String.append_assoc])
  · exact data_infix_of_split
      ("A campaign with the subject \x27" ++ subj ++
        "\x27 already exists.\nExisting campaign details:\n- Campaign ID: " ++
        c.campaign_id ++ "\n- Subject: " ++ c.subject ++ "\n- Scheduled At: ")
      c.scheduled_at
      ("\n- From: " ++ c.from_email ++ "\n- Status: " ++ optStr c.status ++
        "\nTo update this campaign, please provide its campaign_id.") _
      (by simp [conflictMessage, String.append_assoc])
  · exact data_infix_of_split
      ("A campaign with the subject \x27" ++ subj ++
        "\x27 already exists.\nExisting campaign details:\n- Campaign ID: " ++
        c.campaign_id ++ "\n- Subject: " ++ c.subject ++ "\n- Scheduled At: " ++
        c.scheduled_at ++ "\n- From: ")
      c.from_email
      ("\n- Status: " ++ optStr c.status ++
        "\nTo update this campaign, please provide its campaign_id.") _
      (by simp [conflictMessage, String.append_assoc])
  · exact data_infix_of_split
      ("A campaign with the subject \x27" ++ subj ++
        "\x27 already exists.\nExisting campaign details:\n- Campaign ID: " ++
        c.campaign_id ++ "\n- Subject: " ++ c.subject ++ "\n- Scheduled At: " ++
        c.scheduled_at ++ "\n- From: " ++ c.from_email ++ "\n- Status: ")
      (optStr c.status)
      ("\nTo update this campaign, please provide its campaign_id.") _
      (by simp [conflictMessage, String.append_assoc])

/-- Witness for C3: creating a campaign with subject `Hello` when campaign
`SS1` already carries that subject fails with the conflict error and makes
no POST call. -/
theorem duplicate_subject_conflict_witness :
    (create_or_update_campaign envConflict argsCreate).1 =
      .error (.conflict (conflictMessage ("Hello")
        ⟨"SS1", "Hello", "2024-03-20T10:00:00Z", "ann@example.com", some ("draft")⟩)) ∧
    ApiCall.postSinglesend ∉ (create_or_update_campaign envConflict argsCreate).2 :=
  have h := duplicate_subject_conflict envConflict argsCreate ("Hello")
    ⟨"SS1", "Hello", "2024-03-20T10:00:00Z", "ann@example.com", some ("draft")⟩
    (by decide) rfl (by decide)
  ⟨h.1, h.2.2.2.2.2.2⟩

/-- Claim C4 (counterexample): the code reuses `existing_lists[0]` — the
first match in the provider's response order — not the most recent one.
Here the response lists the match with the *older* timestamp suffix first
(`20240101` before `20240601`, lexicographically smaller, hence older), and
the code reuses its id `A` rather than the most recent match `B`. -/
theorem contacts_list_not_most_recent :
    (create_contacts_list envListsTwo ("List for Foo - 20240901_000000") ["x@y.z"]).1 =
      some ("A") ∧
    ("A" : String) ≠ "B" ∧
    lexLt ("List for Foo - 20240101_000000" : String).data
      ("List for Foo - 20240601_000000" : String).data = true := by
  refine ⟨by decide, by decide, by decide⟩

/-- Claim C4 (amended): when some existing list's name starts with the
requested name's prefix (the text before the first `" - "`), the id of the
*first* such list in the provider's response order is reused — no list
creation call is made — rather than creating a duplicate. -/
theorem contacts_list_reuses_first_match (env : Env) (list_name : String)
    (contacts : List String) (ls : List SGList) (l0 : SGList) (rest : List SGList)
    (hget : env.listsGet = some ls)
    (hmatch : ls.filter (fun l => strStartsWith l.name (splitBase list_name)) = l0 :: rest)
    (hput : env.contactsPutOk = true) :
    (create_contacts_list env list_name contacts).1 = some l0.id ∧
    ∀ nm, ApiCall.listsPost nm ∉ (create_contacts_list env list_name contacts).2 := by
  have hex : get_existing_lists env (splitBase list_name) = l0 :: rest := by
    unfold get_existing_lists
    rw [hget]
    exact hmatch
  unfold create_contacts_list
  simp only [hex]
  rw [if_pos hput]
  exact ⟨rfl, by intro nm; simp⟩

/-- Witness for C4 (amended): requesting
`List for Foo - 20240101_000000` when `List for Foo - 20231231_000000`
already exists reuses the existing list's id `LID42` and posts no new
list. -/
theorem contacts_list_reuses_first_match_witness :
    (create_contacts_list envListsOne ("List for Foo - 20240101_000000") ["x@y.z"]).1 =
      some ("LID42") ∧
    ApiCall.listsPost ("List for Foo - 20240101_000000") ∉
      (create_contacts_list envListsOne ("List for Foo - 20240101_000000") ["x@y.z"]).2 :=
  have h := contacts_list_reuses_first_match envListsOne
    "List for Foo - 20240101_000000" ["x@y.z"]
    [⟨"LID42", "List for Foo - 20231231_000000"⟩]
    ⟨"LID42", "List for Foo - 20231231_000000"⟩ []
    (by decide) (by decide) (by decide)
  ⟨h.1, h.2 "List for Foo - 20240101_000000"⟩

/-- Claim C9 (counterexample): a failure of the list *lookup* step is
swallowed inside `get_existing_lists` (which returns `[]`), so
`create_contacts_list` does not return `None` — it creates a fresh list and
the campaign creation proceeds: with `marketing.lists.get` failing
(`envLookupFail`), the workflow still returns a created campaign id and the
POST endpoint is called. -/
theorem lookup_failure_still_creates :
    envLookupFail.listsGet = none ∧
    (create_contacts_list envLookupFail ("List for Hello - 20240101_000000")
      ["ann@example.com"]).1 = some ("L1") ∧
    (create_or_update_campaign envLookupFail argsCreate).1 = .ok ("SS9") ∧
    ApiCall.postSinglesend ∈ (create_or_update_campaign envLookupFail argsCreate).2 := by
  refine ⟨by decide, by decide, by decide, by decide⟩

/-- Claim C9 (amended): if list *creation* or the batch contact *upsert*
fails, `create_contacts_list` catches the exception and returns `None` (a
*lookup* failure instead degrades to an empty lookup result); whenever
`create_contacts_list` returns `None`, `create_or_update_campaign` raises
`Failed to create contacts list` and neither the campaign-create (POST) nor
campaign-update (PATCH) endpoint is ever called. -/
theorem contacts_list_failure_blocks_campaign (env : Env) (args : Args)
    (nm : String) (cts : List String) :
    ((get_existing_lists env (splitBase nm) = [] ∧ env.listsPost = none) →
      (create_contacts_list env nm cts).1 = none) ∧
    (env.contactsPutOk = false → (create_contacts_list env nm cts).1 = none) ∧
    ((∀ nm2 cts2, (create_contacts_list env nm2 cts2).1 = none) →
      ApiCall.postSinglesend ∉ (create_or_update_campaign env args).2 ∧
      ∀ cid, ApiCall.patchSinglesend cid ∉ (create_or_update_campaign env args).2) ∧
    (∀ subj recv html sid t1 sg t2 st,
      truthyOpt args.campaign_id = false →
      args.subject = some subj →
      env.campaigns.find? (fun x => x.subject == subj) = none →
      parse_receivers_file args.receivers_file_path env.fs = .ok recv →
      read_html_content env args.html_body_file_path = .ok html →
      get_sender_id env args.sender = (.ok sid, t1) →
      parse_scheduled_at args.scheduled_at = .ok st →
      get_default_suppression_group env = (.ok sg, t2) →
      (create_contacts_list env (("List for (") ++ subj ++ (") - ") ++ env.now) recv).1 =
        none →
      (create_or_update_campaign env args).1 = .error .listCreationFailed) := by
  refine ⟨?_, ?_, ?_, ?_⟩
  · rintro ⟨hex, hpost⟩
    unfold create_contacts_list
    simp only [hex, hpost]
  · intro hput
    unfold create_contacts_list
    split
    · rw [hput]
      simp
    · split
      · rfl
      · split
        · rfl
        · rw [hput]
          simp
  · intro hclc
    exact ⟨(couc_send_free_of_clc_none env args hclc).1,
           (couc_send_free_of_clc_none env args hclc).2⟩
  · intro subj recv html sid t1 sg t2 st hid hsub hfind hrecv hhtml hsend hsch hsup hclc
    have hchk : check_existing_campaign env args.subject = none := by
      unfold check_existing_campaign
      rw [hsub]
      exact hfind
    have hname : (("List for (") ++ optStr args.subject ++ (") - ") ++ env.now) =
        (("List for (") ++ subj ++ (") - ") ++ env.now) := by
      rw [hsub]
      rfl
    unfold create_or_update_campaign
    rw [if_neg (by simp [hid])]
    simp only [hchk]
    unfold couMain
    simp only [hrecv, hhtml, hsend, hsch, hsup, hname]
    rcases hc : create_contacts_list env (("List for (") ++ subj ++ (") - ") ++ env.now) recv
      with ⟨r3, t3⟩
    rw [hc] at hclc
    cases r3 with
    | none => rfl
    | some lid => exact absurd hclc (by simp)

/-- Witness for C9 (amended): with the batch contact upsert failing
(`envPutFail`), `create_contacts_list` returns `None`, the workflow fails
with the list-creation error, and neither POST nor PATCH is called. -/
theorem contacts_list_failure_blocks_campaign_witness :
    (create_contacts_list envPutFail ("List for Hello - 20240101_000000")
      ["ann@example.com"]).1 = none ∧
    ApiCall.postSinglesend ∉ (create_or_update_campaign envPutFail argsCreate).2 ∧
    ApiCall.patchSinglesend ("SS1") ∉ (create_or_update_campaign envPutFail argsCreate).2 ∧
    (create_or_update_campaign envPutFail argsCreate).1 = .error .listCreationFailed :=
  have hnone : ∀ nm2 cts2, (create_contacts_list envPutFail nm2 cts2).1 = none :=
    fun nm2 cts2 =>
      (contacts_list_failure_blocks_campaign envPutFail argsCreate nm2 cts2).2.1 rfl
  have hblock := (contacts_list_failure_blocks_campaign envPutFail argsCreate
    "x" []).2.2.1 hnone
  have herr := (contacts_list_failure_blocks_campaign envPutFail argsCreate
    "x" []).2.2.2 "Hello" ["ann@example.com"] "<p>hi</p>" (some 7) [.sendersGet]
    (some 3) [.groupsGet] "2024-03-15T14:30:00Z"
    (by decide) rfl (by decide) (by decide) (by decide) (by decide) (by decide)
    (by decide) (by decide)
  ⟨hnone ("List for Hello - 20240101_000000") ["ann@example.com"],
   hblock.1, hblock.2 "SS1", herr⟩

/-- Claim C10 (confirmed): a `None` or empty receivers path returns the empty
list for every filesystem whatsoever — in particular no file is consulted —
rather than raising. -/
theorem parse_receivers_falsy_path (fs : String → Option (List String)) :
    parse_receivers_file none fs = .ok [] ∧
    parse_receivers_file (some ("")) fs = .ok [] := by
  constructor
  · rfl
  · rfl

theorem lookupAttr_update_self (k v : String) :
    ∀ l : List (String × String), l.any (fun p => p.1 == k) = true →
      lookupAttr k (l.map (fun p => if p.1 == k then (k, v) else p)) = some v := by
  intro l
  induction l with
  | nil => simp
  | cons a as ih =>
    intro h
    simp only [List.any_cons, Bool.or_eq_true] at h
    cases ha : (a.1 == k) with
    | true => simp [lookupAttr, ha]
    | false =>
      have h2 : as.any (fun p => p.1 == k) = true := by
        rcases h with h | h
        · rw [ha] at h
          cases h
        · exact h
      simp [lookupAttr, ha]
      simpa using ih h2

theorem lookupAttr_update_ne (k v k2 : String) (hne : k2 ≠ k) :
    ∀ l : List (String × String),
      lookupAttr k2 (l.map (fun p => if p.1 == k then (k, v) else p)) =
        lookupAttr k2 l := by
  intro l
  induction l with
  | nil => simp
  | cons a as ih =>
    cases ha : (a.1 == k) with
    | true =>
      have hak : a.1 = k := by simpa using ha
      simp [lookupAttr, ha, hak, Ne.symm hne]
      simpa using ih
    | false =>
      cases hb : (a.1 == k2) with
      | true => simp [lookupAttr, ha, hb]
      | false =>
        simp [lookupAttr, ha, hb]
        simpa using ih

theorem lookupAttr_append_self (k v : String) :
    ∀ l : List (String × String), l.any (fun p => p.1 == k) = false →
      lookupAttr k (l ++ [(k, v)]) = some v := by
  intro l
  induction l with
  | nil => simp [lookupAttr]
  | cons a as ih =>
    intro h
    simp only [List.any_cons, Bool.or_eq_false_iff] at h
    simp [lookupAttr, h.1]
    simpa using ih h.2

theorem lookupAttr_append_ne (k v k2 : String) (hne : k2 ≠ k) :
    ∀ l : List (String × String),
      lookupAttr k2 (l ++ [(k, v)]) = lookupAttr k2 l := by
  intro l
  induction l with
  | nil => simp [lookupAttr, Ne.symm hne]
  | cons a as ih =>
    cases hb : (a.1 == k2) with
    | true => simp [lookupAttr, hb]
    | false => simp [lookupAttr, hb, ih]

theorem getAttr_setAttr_self (t : ImgTag) (k v : String) :
    (t.setAttr k v).getAttr k = some v := by
  unfold ImgTag.setAttr ImgTag.getAttr
  cases h : t.attrs.any (fun p => p.1 == k) with
  | true =>
    rw [if_pos (rfl : (true : Bool) = true)]
    exact lookupAttr_update_self k v t.attrs h
  | false =>
    rw [if_neg (by simp : ¬((false : Bool) = true))]
    exact lookupAttr_append_self k v t.attrs h

theorem getAttr_setAttr_ne (t : ImgTag) (k k2 v : String) (hne : k2 ≠ k) :
    (t.setAttr k v).getAttr k2 = t.getAttr k2 := by
  unfold ImgTag.setAttr ImgTag.getAttr
  cases h : t.attrs.any (fun p => p.1 == k) with
  | true =>
    rw [if_pos (rfl : (true : Bool) = true)]
    exact lookupAttr_update_ne k v k2 hne t.attrs
  | false =>
    rw [if_neg (by simp : ¬((false : Bool) = true))]
    exact lookupAttr_append_ne k v k2 hne t.attrs

theorem lookupAttr_filter (allowed : List String) (k : String) :
    ∀ l : List (String × String),
      lookupAttr k (l.filter (fun p => allowed.contains p.1)) =
        (if k ∈ allowed then lookupAttr k l else none) := by
  intro l
  induction l with
  | nil => simp [lookupAttr]
  | cons a as ih =>
    have ih2 : lookupAttr k (List.filter (fun p => decide (p.1 ∈ allowed)) as) =
        if k ∈ allowed then lookupAttr k as else none := by
      simpa using ih
    by_cases hm : a.1 ∈ allowed
    · by_cases hp : a.1 = k
      · have hk : k ∈ allowed := hp ▸ hm
        simp [List.filter_cons, lookupAttr, hm, hp, hk]
      · by_cases hk : k ∈ allowed
        · simp [List.filter_cons, lookupAttr, hm, hp, hk, ih2]
        · simp [List.filter_cons, lookupAttr, hm, hp, hk, ih2]
    · by_cases hp : a.1 = k
      · have hk : k ∉ allowed := hp ▸ hm
        simp [List.filter_cons, lookupAttr, hm, hk, ih2]
      · simp [List.filter_cons, lookupAttr, hm, hp, ih2]

theorem getAttr_keepAttrs (t : ImgTag) (allowed : List String) (k : String) :
    (t.keepAttrs allowed).getAttr k =
      (if k ∈ allowed then t.getAttr k else none) := by
  unfold ImgTag.keepAttrs ImgTag.getAttr
  exact lookupAttr_filter allowed k t.attrs

theorem rewrittenImgTag_props (img : ImgTag) (url : String) :
    (rewrittenImgTag img url).getAttr ("src") = some url ∧
    (∀ w h, img.getAttr ("width") = some w → w ≠ "" →
      img.getAttr ("height") = some h → h ≠ "" →
      (rewrittenImgTag img url).getAttr ("style") =
        some (("width:") ++ w ++ ("px;height:") ++ h ++ ("px"))) ∧
    (rewrittenImgTag img url).getAttr ("width") = none ∧
    (rewrittenImgTag img url).getAttr ("height") = none ∧
    ∀ k, k ∉ (["src", "alt", "style"] : List String) →
      (rewrittenImgTag img url).getAttr k = none := by
  have hw1 : ((img.setAttr ("src") url).getAttr ("width")) = img.getAttr ("width") :=
    getAttr_setAttr_ne img ("src") ("width") url (by decide)
  have hh1 : ((img.setAttr ("src") url).getAttr ("height")) = img.getAttr ("height") :=
    getAttr_setAttr_ne img ("src") ("height") url (by decide)
  refine ⟨?_, ?_, ?_, ?_, ?_⟩
  · unfold rewrittenImgTag
    rw [getAttr_keepAttrs]
    rw [if_pos (by decide)]
    by_cases hcond : ((((img.setAttr ("src") url).getAttr ("width")).getD ("") != "") &&
        (((img.setAttr ("src") url).getAttr ("height")).getD ("") != "")) = true
    · rw [if_pos hcond]
      rw [getAttr_setAttr_ne _ ("style") ("src") _ (by decide)]
      exact getAttr_setAttr_self img ("src") url
    · rw [if_neg hcond]
      exact getAttr_setAttr_self img ("src") url
  · intro w h hw hne1 hh hne2
    have hcond : ((((img.setAttr ("src") url).getAttr ("width")).getD ("") != "") &&
        (((img.setAttr ("src") url).getAttr ("height")).getD ("") != "")) = true := by
      rw [hw1, hh1, hw, hh]
      simp [hne1, hne2]
    unfold rewrittenImgTag
    rw [getAttr_keepAttrs]
    rw [if_pos (by decide), if_pos hcond]
    rw [hw1, hh1, hw, hh]
    simp [getAttr_setAttr_self]
  · unfold rewrittenImgTag
    rw [getAttr_keepAttrs]
    rw [if_neg (by decide)]
  · unfold rewrittenImgTag
    rw [getAttr_keepAttrs]
    rw [if_neg (by decide)]
  · intro k hk
    unfold rewrittenImgTag
    rw [getAttr_keepAttrs]
    rw [if_neg hk]

theorem process_image_success (env : ExtractEnv) (config : AzureConfig)
    (img : ImgTag) (part : ImagePart) (base : String) (idx : Nat)
    (cdata : List Nat)
    (hcomp : env.compress part.data = some cdata)
    (hup : ∀ f, env.upload f cdata = true) :
    process_image env config img part base idx =
      some (rewrittenImgTag img
        (get_azure_blob_url config (mkImageFilename env base idx cdata part.mime)),
        mkImageFilename env base idx cdata part.mime) := by
  unfold process_image
  simp only [hcomp]
  rw [if_pos (hup (mkImageFilename env base idx cdata part.mime))]

theorem process_image_filename (env : ExtractEnv) (config : AzureConfig)
    (img : ImgTag) (part : ImagePart) (base : String) (idx : Nat)
    (t : ImgTag) (fname : String)
    (h : process_image env config img part base idx = some (t, fname)) :
    ∃ cdata, fname = mkImageFilename env base idx cdata part.mime := by
  unfold process_image at h
  rcases hc : env.compress part.data with _ | cdata
  · rw [hc] at h
    exact absurd h (by simp)
  · simp only [hc] at h
    by_cases hu : env.upload (mkImageFilename env base idx cdata part.mime) cdata = true
    · rw [if_pos hu] at h
      refine ⟨cdata, ?_⟩
      have := (Prod.mk.injEq _ _ _ _).mp (Option.some.inj h)
      exact this.2.symm
    · rw [if_neg hu] at h
      exact absurd h (by simp)

theorem processImages_fst_shape (env : ExtractEnv) (config : AzureConfig)
    (base : String) (data : List (String × ImagePart)) (img : ImgTag)
    (rest : List ImgTag) (count : Nat) :
    ∃ c2, count ≤ c2 ∧
      (processImages env config base data (img :: rest) count).1 =
        imageStepTag env config base data count img ::
          (processImages env config base data rest c2).1 := by
  simp only [processImages, imageStepTag]
  split
  next hsrc =>
    split
    next part heqL =>
      split
      next t fname heqP =>
        refine ⟨count + 1, Nat.le_succ count, ?_⟩
        simp [hsrc, heqL, heqP]
      next heqP =>
        refine ⟨count, Nat.le_refl count, ?_⟩
        simp [hsrc, heqL, heqP]
    next heqL =>
      refine ⟨count, Nat.le_refl count, ?_⟩
      simp [hsrc, heqL]
  next hsrc =>
    refine ⟨count, Nat.le_refl count, ?_⟩
    simp [hsrc]

theorem processImages_get? (env : ExtractEnv) (config : AzureConfig)
    (base : String) (data : List (String × ImagePart)) :
    ∀ (imgs : List ImgTag) (count i : Nat), ∃ idx, count ≤ idx ∧
      ((processImages env config base data imgs count).1).get? i =
        (imgs.get? i).map (imageStepTag env config base data idx) := by
  intro imgs
  induction imgs with
  | nil =>
    intro count i
    exact ⟨count, Nat.le_refl count, by simp [processImages]⟩
  | cons img rest ih =>
    intro count i
    obtain ⟨c2, hc2, heq⟩ := processImages_fst_shape env config base data img rest count
    cases i with
    | zero =>
      refine ⟨count, Nat.le_refl count, ?_⟩
      rw [heq]
      simp
    | succ j =>
      obtain ⟨idx, hidx, h⟩ := ih c2 j
      refine ⟨idx, Nat.le_trans hc2 hidx, ?_⟩
      rw [heq]
      simpa using h

/-- Claim C5 (counterexample): a matched image whose `width` attribute is
present but *empty* (truthiness!) is rewritten without any style collapse —
the output tag carries the CDN `src` but no `style` attribute, although
both `width` and `height` were present on the input.  The claim's
"if both width and height attributes were present they are collapsed"
fails here. -/
theorem empty_width_skips_style :
    (imgEmptyWidth.getAttr ("width") = some ("") ∧
     imgEmptyWidth.getAttr ("height") = some ("300")) ∧
    ((processImages envImg cfgDemo ("news") imgData [imgEmptyWidth] 1).1).get? 0 =
      some ⟨[("src",
        "https://acct.blob.core.windows.net/imgs/mail/mail_campaigns/news_1_20240101_000000_01234567.png")]⟩ ∧
    (((processImages envImg cfgDemo ("news") imgData [imgEmptyWidth] 1).1).get? 0).bind
      (fun t => t.getAttr ("style")) = none := by
  refine ⟨⟨by decide, by decide⟩, by decide, by decide⟩

/-- Claim C5 (amended): for an image element whose `src` starts with `cid:`
and whose content key (the `src` with every occurrence of `cid:` deleted,
Python `str.replace`) is among the extracted parts, with compression and
upload succeeding: the output element's `src` is the constructed
destination URL; if `width` and `height` are both present *and non-empty*
they collapse into the inline style `width:{w}px;height:{h}px` and are
removed; every attribute other than `src`, `alt`, `style` is stripped.  An
element whose key is unknown, or whose processing fails, is left
unmodified. -/
theorem image_rewrite_properties (env : ExtractEnv) (config : AzureConfig)
    (base : String) (data : List (String × ImagePart)) (imgs : List ImgTag)
    (count i : Nat) :
    (∀ img s part cdata,
      imgs.get? i = some img →
      img.getAttr ("src") = some s →
      strStartsWith s ("cid:") = true →
      data.lookup (replaceCid s) = some part →
      env.compress part.data = some cdata →
      (∀ f, env.upload f cdata = true) →
      ∃ t fname,
        ((processImages env config base data imgs count).1).get? i = some t ∧
        t.getAttr ("src") = some (get_azure_blob_url config fname) ∧
        (∀ w h, img.getAttr ("width") = some w → w ≠ "" →
          img.getAttr ("height") = some h → h ≠ "" →
          t.getAttr ("style") =
            some (("width:") ++ w ++ ("px;height:") ++ h ++ ("px"))) ∧
        t.getAttr ("width") = none ∧ t.getAttr ("height") = none ∧
        (∀ k, k ∉ (["src", "alt", "style"] : List String) → t.getAttr k = none)) ∧
    (∀ img s,
      imgs.get? i = some img →
      img.getAttr ("src") = some s →
      strStartsWith s ("cid:") = true →
      data.lookup (replaceCid s) = none →
      ((processImages env config base data imgs count).1).get? i = some img) ∧
    (∀ img s part,
      imgs.get? i = some img →
      img.getAttr ("src") = some s →
      strStartsWith s ("cid:") = true →
      data.lookup (replaceCid s) = some part →
      env.compress part.data = none →
      ((processImages env config base data imgs count).1).get? i = some img) ∧
    (∀ img,
      imgs.get? i = some img →
      strStartsWith ((img.getAttr ("src")).getD ("")) ("cid:") = false →
      ((processImages env config base data imgs count).1).get? i = some img) := by
  obtain ⟨idx, hle, hget⟩ := processImages_get? env config base data imgs count i
  refine ⟨?_, ?_, ?_, ?_⟩
  · intro img s part cdata hi hsrc hcid hlook hcomp hup
    have hpi := process_image_success env config img part base idx cdata hcomp hup
    obtain ⟨h1, h2, h3, h4, h5⟩ := rewrittenImgTag_props img
      (get_azure_blob_url config (mkImageFilename env base idx cdata part.mime))
    refine ⟨rewrittenImgTag img
      (get_azure_blob_url config (mkImageFilename env base idx cdata part.mime)),
      mkImageFilename env base idx cdata part.mime, ?_, h1, h2, h3, h4, h5⟩
    have hstep : imageStepTag env config base data idx img =
        rewrittenImgTag img
          (get_azure_blob_url config (mkImageFilename env base idx cdata part.mime)) := by
      unfold imageStepTag
      rw [hsrc]
      simp only [Option.getD_some]
      rw [if_pos hcid]
      simp only [hlook]
      rw [hpi]
    rw [hget, hi, Option.map_some', hstep]
  · intro img s hi hsrc hcid hlook
    have hstep : imageStepTag env config base data idx img = img := by
      unfold imageStepTag
      rw [hsrc]
      simp only [Option.getD_some]
      rw [if_pos hcid]
      simp only [hlook]
    rw [hget, hi, Option.map_some', hstep]
  · intro img s part hi hsrc hcid hlook hcomp
    have hstep : imageStepTag env config base data idx img = img := by
      unfold imageStepTag
      rw [hsrc]
      simp only [Option.getD_some]
      rw [if_pos hcid]
      simp only [hlook]
      unfold process_image
      simp only [hcomp]
    rw [hget, hi, Option.map_some', hstep]
  · intro img hi hsrc
    have hstep : imageStepTag env config base data idx img = img := by
      unfold imageStepTag
      rw [if_neg (by simp [hsrc])]
    rw [hget, hi, Option.map_some', hstep]

/-- Witness for C5 (amended): the first demo image (`cid:logo`, width 600,
height 300, a stray `border` attribute) is rewritten to the CDN URL with
the collapsed style and the `border` attribute dropped. -/
theorem image_rewrite_properties_witness :
    ∃ t fname,
      ((processImages envImg cfgDemo ("newsletter") imgData imgsDemo 1).1).get? 0 =
        some t ∧
      t.getAttr ("src") = some (get_azure_blob_url cfgDemo fname) ∧
      (∀ w h,
        (⟨[("src", "cid:logo"), ("width", "600"), ("height", "300"),
           ("border", "1"), ("alt", "Logo")]⟩ : ImgTag).getAttr ("width") = some w →
        w ≠ "" →
        (⟨[("src", "cid:logo"), ("width", "600"), ("height", "300"),
           ("border", "1"), ("alt", "Logo")]⟩ : ImgTag).getAttr ("height") = some h →
        h ≠ "" →
        t.getAttr ("style") =
          some (("width:") ++ w ++ ("px;height:") ++ h ++ ("px"))) ∧
      t.getAttr ("width") = none ∧ t.getAttr ("height") = none ∧
      (∀ k, k ∉ (["src", "alt", "style"] : List String) → t.getAttr k = none) :=
  (image_rewrite_properties envImg cfgDemo ("newsletter") imgData imgsDemo 1 0).1
    ⟨[("src", "cid:logo"), ("width", "600"), ("height", "300"),
      ("border", "1"), ("alt", "Logo")]⟩
    "cid:logo" ⟨[1, 2], "image/png"⟩ [1, 2]
    (by decide) (by decide) (by decide) (by decide) (by decide) (fun f => rfl)

theorem processImages_files (env : ExtractEnv) (config : AzureConfig)
    (base : String) (data : List (String × ImagePart)) :
    ∀ (imgs : List ImgTag) (count : Nat),
      (processImages env config base data imgs count).2.1 =
        count + (processImages env config base data imgs count).2.2.length ∧
      ∀ k, k < (processImages env config base data imgs count).2.2.length →
        ∃ cdata mime,
          (processImages env config base data imgs count).2.2.get? k =
            some (mkImageFilename env base (count + k) cdata mime) := by
  intro imgs
  induction imgs with
  | nil =>
    intro count
    constructor
    · simp [processImages]
    · intro k hk
      simp [processImages] at hk
  | cons img rest ih =>
    intro count
    simp only [processImages]
    split
    next hsrc =>
      split
      next part heqL =>
        split
        next t fname heqP =>
          obtain ⟨cdata, hfn⟩ :=
            process_image_filename env config img part base count t fname heqP
          constructor
          · have := (ih (count + 1)).1
            simp only [List.length_cons, this]
            omega
          · intro k hk
            cases k with
            | zero =>
              refine ⟨cdata, part.mime, ?_⟩
              simp [hfn]
            | succ j =>
              simp only [List.length_cons] at hk
              obtain ⟨cd, m, h⟩ := (ih (count + 1)).2 j (by omega)
              refine ⟨cd, m, ?_⟩
              simp only [List.get?_cons_succ]
              rw [h]
              have : count + 1 + j = count + (j + 1) := by omega
              rw [this]
        next heqP =>
          exact ih count
      next heqL =>
        exact ih count
    next hsrc =>
      exact ih count

/-- Claim C8 (confirmed): the sequence index embedded in uploaded image
file names starts at 1 and advances only on a successful upload: the final
counter is one plus the number of uploads, and the k-th uploaded file name
(0-based) carries index `1 + k` — the indices are consecutive over
successful uploads, not over matched images. -/
theorem upload_indices_consecutive (env : ExtractEnv) (config : AzureConfig)
    (base : String) (data : List (String × ImagePart)) (imgs : List ImgTag) :
    (extract_images env config base data imgs).2.1 =
      1 + (extract_images env config base data imgs).2.2.length ∧
    ∀ k, k < (extract_images env config base data imgs).2.2.length →
      ∃ cdata mime,
        (extract_images env config base data imgs).2.2.get? k =
          some (mkImageFilename env base (1 + k) cdata mime) := by
  unfold extract_images
  exact processImages_files env config base data imgs 1

/-- Witness for C8: in the demo run the second image fails compression, so
the two uploaded file names carry the consecutive indices 1 and 2 — the
second *successful* image (the third in the document) receives index 2. -/
theorem upload_indices_consecutive_witness :
    (extract_images envImg cfgDemo ("newsletter") imgData imgsDemo).2.1 = 3 ∧
    ∃ cdata mime,
      (extract_images envImg cfgDemo ("newsletter") imgData imgsDemo).2.2.get? 1 =
        some (mkImageFilename envImg ("newsletter") 2 cdata mime) :=
  ⟨by
    have h := (upload_indices_consecutive envImg cfgDemo ("newsletter") imgData imgsDemo).1
    rw [h]
    decide,
   (upload_indices_consecutive envImg cfgDemo ("newsletter") imgData imgsDemo).2 1
     (by decide)⟩

end SendgridCampaigns
